import Mathlib

/-!
Shallow embedding of the device-communication core of the
homey-marstek-connector repository: the Marstek Venus UDP driver
(`src/drivers/marstek-venus/driver.ts`), the shared UDP socket helper
(`src/lib/marstek-api.ts`) and the cloud session manager
(`src/lib/marstek-cloud.ts`).

JavaScript values that flow through the JSON protocol are modelled by the
`Json` type below; JavaScript truthiness and strict equality are modelled
explicitly.  Machine state (promise singletons, handler registries, timers)
is modelled as explicit state passed through step functions, with the
single-threaded event loop represented as a fold over a trace of events.
-/

/-- A JSON/JavaScript value as it appears in protocol messages.  Objects are
one level deep: every field access performed by the embedded code is a
single-level lookup, so nested objects are carried as opaque field lists. -/
inductive Json where
  | null
  | bool (b : Bool)
  | num (n : Int)
  | str (s : String)
  | obj (fields : List (String × Bool))
deriving DecidableEq, Repr

/-- JavaScript truthiness of a value (`if (x)`).  Objects (including empty
ones and arrays) are always truthy; `0`, `""`, `false` and `null` are falsy. -/
def Json.truthy : Json → Bool
  | .null => false
  | .bool b => b
  | .num n => n != 0
  | .str s => s != ""
  | .obj _ => true

/-- JavaScript strict equality `===` as exercised by the embedded code:
primitives compare by value; two distinct parsed objects are never
reference-equal, so object comparison yields `false` (each inbound datagram
is a fresh `JSON.parse` result). -/
def Json.seq : Json → Json → Bool
  | .null, .null => true
  | .bool a, .bool b => a == b
  | .num a, .num b => a == b
  | .str a, .str b => a == b
  | _, _ => false

/-- Whether the value is an object (`typeof x === 'object'` together with a
truthiness guard excludes `null` in the embedded checks). -/
def Json.isObj : Json → Bool
  | .obj _ => true
  | _ => false

/-- `'key' in x` on a one-level object: membership of the field name. -/
def Json.hasField (j : Json) (key : String) : Bool :=
  match j with
  | .obj fields => fields.any (fun f => f.fst == key)
  | _ => false

/-- `x.key` truthiness on a one-level object: the recorded truthiness of the
field's value, `false` (undefined) when absent or not an object. -/
def Json.fieldTruthy (j : Json) (key : String) : Bool :=
  match j with
  | .obj fields =>
      match fields.lookup key with
      | some b => b
      | none => false
  | _ => false

section SetModeConfiguration
/-!
`setModeConfiguration` (driver.ts lines 533-565): a `while (attempt <
maxRetries)` loop around `sendCommand('ES.SetMode', ...)`.  The outcome of
each `sendCommand` call is supplied by the environment as a function from
the attempt index to either a resolved `result` value or a rejection
message (timeout, send failure, unexpected-shape rejection).
-/

/-- driver.ts line 534: `const maxRetries = 5`. -/
def maxRetries : Nat := 5

/-- driver.ts line 550: the guard
`result && typeof result === 'object' && 'set_result' in result && !result.set_result`.
`true` exactly when the device reply is an explicit negative
acknowledgement. -/
def setModeRejected (result : Json) : Bool :=
  result.truthy && result.isObj && result.hasField "set_result" &&
    !(result.fieldTruthy "set_result")

/-- One iteration of the retry loop body: the `sendCommand` outcome is
either a rejection (caught by the surrounding `catch`) or a result value
that is then checked for an explicit negative acknowledgement, whose
`throw` is caught by the same `catch`. -/
def setModeAttempt (outcome : Except String Json) : Except String Unit :=
  match outcome with
  | .error e => .error e
  | .ok result =>
      if setModeRejected result then
        .error "Device rejected the requested mode change"
      else
        .ok ()

/-- The retry loop of `setModeConfiguration`, structurally recursive on the
remaining iterations (`maxRetries - attempt`).  Returns the total number of
`sendCommand` invocations performed together with the overall result; on
exhaustion the last error is thrown (`throw lastError`). -/
def setModeLoop (outcomes : Nat → Except String Json) :
    Nat → Nat → Option String → Nat × Except String Unit
  | attempt, 0, lastError => (attempt, .error (lastError.getD "undefined"))
  | attempt, remaining + 1, _ =>
      match setModeAttempt (outcomes attempt) with
      | .ok () => (attempt + 1, .ok ())
      | .error e => setModeLoop outcomes (attempt + 1) remaining (some e)

/-- `setModeConfiguration` (driver.ts lines 533-565) with the per-attempt
`sendCommand` outcomes supplied by the environment.  The first component of
the result counts the attempts actually performed. -/
def setModeConfiguration (outcomes : Nat → Except String Json) :
    Nat × Except String Unit :=
  setModeLoop outcomes 0 maxRetries none

/-- A device that replies to every attempt with an explicit negative
acknowledgement `{ set_result: false }`. -/
def alwaysRejectDevice : Nat → Except String Json :=
  fun _ => .ok (.obj [("set_result", false)])

/-- A device that never replies: every attempt ends in the `sendCommand`
timeout rejection (driver.ts line 594). -/
def neverReplyDevice : Nat → Except String Json :=
  fun _ => .error "Timed out waiting for device response"

end SetModeConfiguration

section PollInterval
/-!
`getPollInterval` (driver.ts lines 265-282): folds over the devices'
`interval` settings.  A device setting is an arbitrary JavaScript number;
the code uses the truthiness test `seconds && seconds < interval`, so the
setting is modelled as an `Int` with `0` standing for an absent/falsy
setting.  Inside the loop body, after the minimum update, the guard
`if (!interval || interval < 15) interval = 600` replaces any value below
15 with 600.  The initial accumulator is `60 * 60` seconds.  (The
`defaultInterval` read from app settings on line 268 is only logged, never
used in the computation.)
-/

/-- The body of the `devices.forEach` in `getPollInterval`: one device's
`interval` setting folded into the accumulator. -/
def pollIntervalStep (interval seconds : Int) : Int :=
  let interval := if seconds ≠ 0 ∧ seconds < interval then seconds else interval
  if interval = 0 ∨ interval < 15 then 600 else interval

/-- The seconds value computed by `getPollInterval` before conversion to
milliseconds: the fold of `pollIntervalStep` over the device settings in
device order, starting from `60 * 60`. -/
def getPollIntervalSeconds (settings : List Int) : Int :=
  settings.foldl pollIntervalStep (60 * 60)

/-- `getPollInterval` (driver.ts line 281): the seconds value scaled to
milliseconds plus the random jitter `Math.round(Math.random() * 100)`,
supplied here as an explicit argument `jitter ∈ [0, 100]`. -/
def getPollInterval (settings : List Int) (jitter : Nat) : Int :=
  getPollIntervalSeconds settings * 1000 + jitter

end PollInterval

section SendCommand
/-!
`sendCommand` (driver.ts lines 576-620): a promise with three settle paths
(timeout, matching inbound reply, send failure), a one-shot inbound handler
registered on the shared socket, and a `cleanup` that removes the handler
and clears the timer before every settlement.  The single-threaded event
loop is modelled as a fold over a trace of events; promise settlement is
first-wins (JavaScript ignores later resolve/reject calls), while
`settleCalls` counts every resolve/reject invocation.
-/

/-- An inbound datagram as the handler sees it after `JSON.parse`: the four
field values the embedded code reads (absent field = `undefined`). -/
structure InMsg where
  id : Option Json
  src : Option Json
  result : Option Json
  err : Option Json
deriving DecidableEq, Repr

/-- `json.id === unique` (driver.ts line 603), with `unique` the request's
numeric identifier. -/
def matchesId (m : InMsg) (unique : Int) : Bool :=
  match m.id with
  | some v => v.seq (.num unique)
  | none => false

/-- The ways the `sendCommand` promise can be settled, plus the two
outcomes (`deviceErr`, `protocolErr`) that only the specification's claimed
reply-handling rule produces. -/
inductive Settle where
  | resolved (v : Json)
  | unexpectedReply
  | timedOut
  | sendFailed (msg : String)
  | deviceErr (msg : String)
  | protocolErr
deriving DecidableEq, Repr

/-- Whether a settlement is a rejection with a `DeviceError`. -/
def Settle.isDeviceErrB : Settle → Bool
  | .deviceErr _ => true
  | _ => false

/-- The mutable state of one `sendCommand` invocation: the promise's
settlement (first-wins), the count of resolve/reject invocations, whether
the inbound handler is still registered (`socket.off` not yet called) and
whether the timeout is still armed (`clearTimeout` not yet called). -/
structure SCState where
  settled : Option Settle
  settleCalls : Nat
  handlerOn : Bool
  timerOn : Bool
deriving DecidableEq, Repr

/-- State right after `sendCommand` registers its handler and arms the
timer. -/
def SCState.initial : SCState := ⟨none, 0, true, true⟩

/-- A resolve/reject invocation: the promise keeps its first settlement and
ignores the rest; the invocation count always increments. -/
def SCState.settle (s : SCState) (x : Settle) : SCState :=
  { s with settled := (s.settled.orElse fun _ => some x),
           settleCalls := s.settleCalls + 1 }

/-- `cleanup()` (driver.ts lines 597-600): `socket.off(handler)` and
`clearTimeout(timer)`. -/
def SCState.cleanup (s : SCState) : SCState :=
  { s with handlerOn := false, timerOn := false }

/-- The events the event loop can deliver to one `sendCommand` invocation:
an inbound datagram dispatched to the handler registry, the timeout firing,
or the rejection of the `socket.send` promise. -/
inductive SCEvent where
  | inbound (m : InMsg)
  | timerFire
  | sendFail (msg : String)
deriving DecidableEq, Repr

/-- Whether an event is the `socket.send` rejection. -/
def SCEvent.isSendFail : SCEvent → Bool
  | .sendFail _ => true
  | _ => false

/-- Whether an event is an inbound datagram whose `id` matches the request
identifier `u`. -/
def SCEvent.isMatchFor (u : Int) : SCEvent → Bool
  | .inbound m => matchesId m u
  | _ => false

/-- One step of the event loop against a `sendCommand` invocation with
request identifier `unique`: the handler (driver.ts lines 602-611) runs only
while registered; the timer callback (lines 591-595) only while armed; the
`socket.send(...).catch` (lines 615-618) performs cleanup and rejects. -/
def scStep (unique : Int) (s : SCState) : SCEvent → SCState
  | .inbound m =>
      if s.handlerOn && matchesId m unique then
        let s := s.cleanup
        match m.result with
        | some r => if r.truthy then s.settle (.resolved r) else s.settle .unexpectedReply
        | none => s.settle .unexpectedReply
      else s
  | .timerFire =>
      if s.timerOn then (SCState.cleanup s).settle .timedOut else s
  | .sendFail msg => (SCState.cleanup s).settle (.sendFailed msg)

/-- Run one `sendCommand` invocation against a trace of event-loop events. -/
def scRun (unique : Int) (events : List SCEvent) : SCState :=
  events.foldl (scStep unique) SCState.initial

/-- driver.ts line 576: the default response deadline in milliseconds. -/
def sendCommandDefaultTimeout : Nat := 10000

/-- The at-most-one-settlement invariant of a `sendCommand` invocation:
no more than one resolve/reject call has happened, and none has while the
handler or the timer is still active. -/
def SCInv (s : SCState) : Prop :=
  s.settleCalls ≤ 1 ∧ ((s.handlerOn || s.timerOn) = true → s.settleCalls = 0)

/-- The state of a `sendCommand` invocation right after its timeout fired
with nothing settled before: rejected with the timeout error, handler
deregistered, timer cleared. -/
def SCTimedOutState : SCState := ⟨some .timedOut, 1, false, false⟩

/-- The reply-handling rule exactly as the specification claims it (for
comparison with the implemented handler): an `error` field rejects with a
`DeviceError` carrying the vendor message, a `result` field resolves with
that value, anything else is a `ProtocolError`. -/
def specClaimedReplyOutcome (m : InMsg) (vendorMsg : String) : Settle :=
  match m.err with
  | some _ => .deviceErr vendorMsg
  | none =>
      match m.result with
      | some r => .resolved r
      | none => .protocolErr

end SendCommand

section CloudSession
/-!
The cloud session manager (`src/lib/marstek-cloud.ts`): singleton promises
for `login` and `fetchDeviceStatus`, a cached last status served while
younger than 58 000 ms, and token/devices storage.  The synchronous
entry of each method (everything before the first `await`, which decides
whether a network call starts) is modelled as a state-transforming
function; the completion of the async body is a second function applied to
the HTTP response supplied by the environment.
-/

/-- The session fields the embedded code reads and writes.  `loginInFlight`
models `this.loginPromise !== undefined`, `fetchInFlight` models
`this.devicePromise !== undefined`; `timestamp` is the epoch milliseconds
of the last successful fetch. -/
structure CloudState where
  token : Option Json
  devices : Option Json
  loginInFlight : Bool
  fetchInFlight : Bool
  lastDeviceStatus : Option Json
  timestamp : Option Int
deriving DecidableEq, Repr

/-- Truthiness of the stored token (`!this.token` negated). -/
def CloudState.tokenTruthy (s : CloudState) : Bool :=
  match s.token with
  | some v => v.truthy
  | none => false

/-- marstek-cloud.ts lines 142-149: the freshness test
`this.lastDeviceStatus && this.timestamp` and `diff < 58000` with
`diff = now - timestamp`. -/
def fetchFresh (s : CloudState) (now : Int) : Bool :=
  match s.lastDeviceStatus, s.timestamp with
  | some v, some t => v.truthy && (now - t < 58000)
  | _, _ => false

/-- What the synchronous prefix of `fetchDeviceStatus` returns: the
existing in-flight promise, the cached snapshot, or a freshly started
singleton promise (only this last alternative leads to network calls). -/
inductive FetchEntry where
  | attach
  | cached (v : Json)
  | started
deriving DecidableEq, Repr

/-- The synchronous prefix of `fetchDeviceStatus` (marstek-cloud.ts lines
133-152): return the in-flight `devicePromise` when present; otherwise
return the cached status when fresh; otherwise install a new singleton
promise. -/
def fetchDeviceStatusEntry (s : CloudState) (now : Int) : FetchEntry × CloudState :=
  if s.fetchInFlight then (.attach, s)
  else if fetchFresh s now then (.cached (s.lastDeviceStatus.getD .null), s)
  else (.started, { s with fetchInFlight := true })

/-- What the synchronous prefix of `login` returns: the existing in-flight
promise or a freshly started one. -/
inductive LoginEntry where
  | attach
  | started
deriving DecidableEq, Repr

/-- The synchronous prefix of `login` (marstek-cloud.ts lines 74-86):
return the in-flight `loginPromise` when present; otherwise install the
singleton promise, whose body synchronously clears the stored token
(`this.token = undefined`, line 85) before its first `await`. -/
def loginEntry (s : CloudState) : LoginEntry × CloudState :=
  if s.loginInFlight then (.attach, s)
  else (.started, { s with loginInFlight := true, token := none })

/-- The parsed HTTP response of the login request as the embedded code
reads it: the `token` and `data` field values, if present. -/
structure LoginResponse where
  token : Option Json
  data : Option Json
deriving DecidableEq, Repr

/-- The remainder of the `login` async body after its `request` resolves
(marstek-cloud.ts lines 93-116), applied to the response (`none` models an
`undefined` response from an empty body): stores a truthy received token,
stores the device list when present, and throws otherwise; the `finally`
clears the singleton promise. -/
def loginComplete (s : CloudState) (resp : Option LoginResponse) :
    CloudState × Except String LoginResponse :=
  let settle := fun (st : CloudState) (r : Except String LoginResponse) =>
    ({ st with loginInFlight := false }, r)
  match resp with
  | none => settle s (.error "Login did not return a token")
  | some r =>
      match r.token with
      | none => settle s (.error "Login did not return a token")
      | some tv =>
          if tv.truthy then
            let s1 := { s with token := some tv }
            match r.data with
            | some d =>
                if d.truthy then
                  settle { s1 with devices := some d } (.ok r)
                else
                  settle { s1 with devices := none }
                    (.error "Login did not return any devices.")
            | none =>
                settle { s1 with devices := none }
                  (.error "Login did not return any devices.")
          else settle s (.error "Login did not return a token")

/-- marstek-cloud.ts line 155: the `if (!this.token)` guard at the start of
the fetch body that decides whether an initial `login()` is performed. -/
def fetchInitialLoginNeeded (s : CloudState) : Bool :=
  !s.tokenTruthy

end CloudSession

section SocketConnect
/-!
`connect()` of the UDP socket helper (`src/lib/marstek-api.ts` lines
71-164): idempotence on an already-bound healthy socket, the bind request
parameters, the `setBroadcast(true)` call, and the settle behaviour of the
returned promise under the possible environment outcomes.
-/

/-- marstek-api.ts line 20: `localPort: number = 0` — `0` requests a
dynamic, OS-assigned local port. -/
def localPort : Nat := 0

/-- marstek-api.ts line 19: the remote port Marstek devices listen on. -/
def remotePort : Nat := 30000

/-- The parameters of the `socket.bind` call. -/
structure BindRequest where
  port : Nat
  allInterfaces : Bool
  exclusive : Bool
deriving DecidableEq, Repr

/-- marstek-api.ts lines 122-126: `port: this.localPort`,
`address: undefined` (all local addresses), `exclusive: false`. -/
def connectBindRequest : BindRequest :=
  { port := localPort, allInterfaces := true, exclusive := false }

/-- The socket-helper state `connect` reads and writes. -/
structure SocketState where
  sockExists : Bool
  connected : Bool
  broadcastFlag : Bool
deriving DecidableEq, Repr

/-- How the environment answers the bind attempt: the bind callback fires
(and `setBroadcast` succeeds or throws), the socket emits an asynchronous
`error` event instead, or socket creation/binding throws synchronously. -/
inductive ConnectEnv where
  | bindOk (broadcastOk : Bool)
  | bindErrorEvent
  | createThrow
deriving DecidableEq, Repr

/-- How the `connect()` promise ends up, with the bind request it issued
when one was issued.  `unsettled` records that the promise was neither
resolved nor rejected. -/
inductive ConnectOutcome where
  | resolvedImmediately
  | resolvedAfterBind (req : BindRequest)
  | rejected (req : Option BindRequest)
  | unsettled (req : BindRequest)
deriving DecidableEq, Repr

/-- `connect()` (marstek-api.ts lines 71-164).  An existing healthy socket
resolves immediately without binding (lines 75-79).  Otherwise a socket is
created and bound with `connectBindRequest`; on the bind callback,
`setBroadcast(true)` is attempted — success marks the socket connected and
resolves, a throw disconnects and rejects (lines 126-142).  A synchronous
exception disconnects and rejects (lines 157-161).  An asynchronous
`error` event runs the `on('error')` handler, which only disconnects — the
promise is left unsettled (lines 145-149). -/
def connect (s : SocketState) (env : ConnectEnv) : ConnectOutcome × SocketState :=
  if s.sockExists && s.connected then (.resolvedImmediately, s)
  else
    match env with
    | .createThrow => (.rejected none, ⟨false, false, false⟩)
    | .bindErrorEvent => (.unsettled connectBindRequest, ⟨false, false, false⟩)
    | .bindOk broadcastOk =>
        if broadcastOk then (.resolvedAfterBind connectBindRequest, ⟨true, true, true⟩)
        else (.rejected (some connectBindRequest), ⟨false, false, false⟩)

end SocketConnect

section PollLifecycle
/-!
`pollStart` / `pollStop` (driver.ts lines 220-246): `pollDevices` is an
array mutated with `push` and `indexOf`/`splice(index, 1)`, the repeating
timer starts on `pollStart` when `this.pollTimeout` is unset (with one
immediate `poll()`), and is cleared on `pollStop` when the array becomes
empty.
-/

/-- The driver state the poll lifecycle reads and writes; `immediatePolls`
counts the immediate `poll()` calls fired from `pollStart`. -/
structure PollState where
  pollDevices : List String
  timerRunning : Bool
  immediatePolls : Nat
deriving DecidableEq, Repr

/-- The driver's initial state: no tracked devices, no timer. -/
def pollInit : PollState := ⟨[], false, 0⟩

/-- `pollStart` (driver.ts lines 220-230): push the identifier, and when no
timer is running, start it and fire one immediate poll. -/
def pollStart (s : PollState) (device : String) : PollState :=
  let devs := s.pollDevices ++ [device]
  if !s.timerRunning then ⟨devs, true, s.immediatePolls + 1⟩
  else ⟨devs, s.timerRunning, s.immediatePolls⟩

/-- `pollStop` (driver.ts lines 236-246): `indexOf`/`splice` removes the
first occurrence of the identifier when present; when the timer is running
and the array has become empty, clear the timer. -/
def pollStop (s : PollState) (device : String) : PollState :=
  let devs := s.pollDevices.erase device
  if s.timerRunning && devs.isEmpty then ⟨devs, false, s.immediatePolls⟩
  else ⟨devs, s.timerRunning, s.immediatePolls⟩

/-- A call in a poll lifecycle trace. -/
inductive PollEvent where
  | start (device : String)
  | stop (device : String)
deriving DecidableEq, Repr

/-- One lifecycle call applied to the driver state. -/
def pollStep (s : PollState) : PollEvent → PollState
  | .start d => pollStart s d
  | .stop d => pollStop s d

/-- Run a trace of `pollStart`/`pollStop` calls from the initial state. -/
def pollRun (events : List PollEvent) : PollState :=
  events.foldl pollStep pollInit

end PollLifecycle

section BroadcastDetect
/-!
`broadcastDetect` (driver.ts lines 629-690): the discovery handler collects
replies carrying a device-identity marker into `devices`, de-duplicating on
the `src` field with `devices.find((element) => element.data.id ===
unique)`; after the 9-second window the promise resolves with `devices`.
-/

/-- A discovery reply as the handler sees it: the `src` and `result` field
values of the parsed datagram plus the sender address from `remote`. -/
structure DetectReply where
  src : Option Json
  result : Option Json
  address : String
deriving DecidableEq, Repr

/-- driver.ts line 639: `json && json.src && json.result &&
json.result.device`. -/
def detectValid (r : DetectReply) : Bool :=
  (match r.src with
   | some v => v.truthy
   | none => false) &&
  (match r.result with
   | some v => v.truthy && v.fieldTruthy "device"
   | none => false)

/-- A pairing entry pushed by the discovery handler: `data.id` is the
reply's `src` value and the stored address is the sender's address
(`store.address`, driver.ts line 656). -/
structure DetectedDevice where
  id : Json
  address : String
deriving DecidableEq, Repr

/-- The discovery handler (driver.ts lines 635-661) applied to one reply:
a valid reply whose `src` is not yet present (compared with `===`) is
appended with the sender's address. -/
def detectStep (devices : List DetectedDevice) (r : DetectReply) : List DetectedDevice :=
  if detectValid r then
    let unique := r.src.getD .null
    if devices.any fun e => e.id.seq unique then devices
    else devices ++ [⟨unique, r.address⟩]
  else devices

/-- The device list `broadcastDetect` resolves with after its window, as a
function of the inbound replies received during the window, in order. -/
def broadcastDetect (replies : List DetectReply) : List DetectedDevice :=
  replies.foldl detectStep []

/-- driver.ts line 683: the discovery window in milliseconds. -/
def detectWindowMs : Nat := 9000

end BroadcastDetect

section PassiveMode
/-!
`setModePassive` (driver.ts lines 462-482): the inputs arrive as JavaScript
numbers after `Number(...)` coercion; the validation is `Number.isNaN` and
`< 0`.  JavaScript numbers are modelled with explicit `NaN` and infinities
(finite values as integers — the claims only concern the
NaN/negative/infinite classification).
-/

/-- A JavaScript number after `Number(...)` coercion. -/
inductive JSNum where
  | nan
  | posInf
  | negInf
  | finite (v : Int)
deriving DecidableEq, Repr

/-- `Number.isNaN`. -/
def JSNum.isNaNB : JSNum → Bool
  | .nan => true
  | _ => false

/-- The JavaScript comparison `x < 0` (false for `NaN`). -/
def JSNum.ltZero : JSNum → Bool
  | .nan => false
  | .posInf => false
  | .negInf => true
  | .finite v => v < 0

/-- Whether a value is a non-negative finite number — the class the
specification says is the only one accepted. -/
def JSNum.nonNegFinite : JSNum → Bool
  | .finite v => 0 ≤ v
  | _ => false

/-- The `passive_cfg` payload built by `setModePassive`. -/
structure PassiveCfg where
  power : JSNum
  cd_time : JSNum
deriving DecidableEq, Repr

/-- `setModePassive` (driver.ts lines 462-482) after `Number(...)`
coercion of both inputs: reject when either is `NaN`, reject when either is
negative, otherwise build the passive-mode payload that is then sent via
`setModeConfiguration`. -/
def setModePassive (power seconds : JSNum) : Except String PassiveCfg :=
  if power.isNaNB || seconds.isNaNB then
    .error "Power and seconds must be numbers"
  else if power.ltZero || seconds.ltZero then
    .error "Power and seconds must be zero or greater"
  else
    .ok { power := power, cd_time := seconds }

/-- Whether a `setModePassive` run produced a payload (as opposed to a
synchronous rejection). -/
def passiveOk : Except String PassiveCfg → Bool
  | .ok _ => true
  | .error _ => false

end PassiveMode

/-! ## Theorems -/

/-- Helper for C1: when every attempt of the retry loop fails, the loop
performs every remaining iteration and surfaces the error of the last one. -/
theorem setModeLoop_all_errors (outcomes : Nat → Except String Json)
    (errs : Nat → String) (h : ∀ n, setModeAttempt (outcomes n) = .error (errs n)) :
    ∀ (remaining attempt : Nat) (last : Option String), 0 < remaining →
      setModeLoop outcomes attempt remaining last =
        (attempt + remaining, .error (errs (attempt + remaining - 1))) := by
  intro remaining
  induction remaining with
  | zero => intro _ _ h0; omega
  | succ k ih =>
      intro attempt last _
      cases k with
      | zero =>
          simp only [setModeLoop, h attempt, Option.getD_some]
          simp
      | succ k2 =>
          have step : setModeLoop outcomes attempt (k2 + 1 + 1) last =
              setModeLoop outcomes (attempt + 1) (k2 + 1) (some (errs attempt)) := by
            simp only [setModeLoop, h attempt]
          rw [step, ih (attempt + 1) (some (errs attempt)) (Nat.succ_pos _)]
          have e : attempt + 1 + (k2 + 1) = attempt + (k2 + 1 + 1) := by omega
          rw [e]

/-- C1 counterexample: a device that replies to every `ES.SetMode` request
with the explicit negative acknowledgement `{ set_result: false }` gets 5
attempts from `setModeConfiguration`, not the single attempt the claim
states — the rejection `throw` is caught by the loop's own `catch` and
retried like any other error. -/
theorem setModeConfiguration_reject_retried_cex :
    (setModeConfiguration alwaysRejectDevice).1 = 5
    ∧ (setModeConfiguration alwaysRejectDevice).1 ≠ 1
    ∧ (setModeConfiguration alwaysRejectDevice).2 =
        .error "Device rejected the requested mode change" := by
  refine ⟨rfl, by decide, rfl⟩

/-- C1 (amended): every `setModeConfiguration` run in which all attempts
fail — whether by explicit device rejection, by timeout, or by any other
error — performs exactly `maxRetries = 5` attempts and surfaces the last
attempt's error; in particular a device that never replies causes exactly 5
attempts ending in the timeout-derived error, and a device that always
replies with the explicit negative acknowledgement also causes exactly 5
attempts ending in the rejection error. -/
theorem setModeConfiguration_five_attempts (outcomes : Nat → Except String Json)
    (errs : Nat → String) (h : ∀ n, setModeAttempt (outcomes n) = .error (errs n)) :
    setModeConfiguration outcomes = (5, .error (errs 4)) := by
  have := setModeLoop_all_errors outcomes errs h 5 0 none (by omega)
  simpa [setModeConfiguration, maxRetries] using this

/-- C1 witness: the amended theorem applied to the never-replying device. -/
theorem setModeConfiguration_five_attempts_witness :
    setModeConfiguration neverReplyDevice =
      (5, .error "Timed out waiting for device response") :=
  setModeConfiguration_five_attempts neverReplyDevice
    (fun _ => "Timed out waiting for device response") (fun _ => rfl)

/-- Helper for C2: on inputs at or above the 15-second floor the fold body
of `getPollInterval` is exactly the running minimum. -/
theorem pollIntervalStep_min (acc s : Int) (ha : 15 ≤ acc) (hs : 15 ≤ s) :
    pollIntervalStep acc s = min acc s := by
  unfold pollIntervalStep
  rcases le_total acc s with h | h
  · rw [min_eq_left h]
    dsimp only
    split_ifs <;> omega
  · rw [min_eq_right h]
    dsimp only
    split_ifs <;> omega

/-- Helper for C2: the fold of `getPollInterval` agrees with the
minimum-fold when the accumulator and every setting are at or above the
floor. -/
theorem foldl_pollIntervalStep_min :
    ∀ (l : List Int) (acc : Int), 15 ≤ acc → (∀ x ∈ l, (15:Int) ≤ x) →
      l.foldl pollIntervalStep acc = l.foldl min acc := by
  intro l
  induction l with
  | nil => intro acc _ _; rfl
  | cons x xs ih =>
      intro acc ha hall
      have hx : (15:Int) ≤ x := hall x (by simp)
      simp only [List.foldl_cons]
      rw [pollIntervalStep_min acc x ha hx]
      exact ih (min acc x) (le_min ha hx) (fun y hy => hall y (by simp [hy]))

/-- Helper for C2: a minimum-fold whose accumulator is a lower bound of the
list is constant. -/
theorem foldl_min_const :
    ∀ (l : List Int) (acc : Int), (∀ x ∈ l, acc ≤ x) → l.foldl min acc = acc := by
  intro l
  induction l with
  | nil => intro acc _; rfl
  | cons x xs ih =>
      intro acc hall
      have hx : acc ≤ x := hall x (by simp)
      simp only [List.foldl_cons, min_eq_left hx]
      exact ih acc (fun y hy => hall y (by simp [hy]))

/-- Helper for C2: a strict lower bound of the accumulator and of every
list element is a strict lower bound of the minimum-fold. -/
theorem foldl_min_lower :
    ∀ (l : List Int) (acc k : Int), k < acc → (∀ x ∈ l, k < x) →
      k < l.foldl min acc := by
  intro l
  induction l with
  | nil => intro acc k hk _; exact hk
  | cons x xs ih =>
      intro acc k hk hall
      have hx : k < x := hall x (by simp)
      simp only [List.foldl_cons]
      exact ih (min acc x) k (lt_min hk hx) (fun y hy => hall y (by simp [hy]))

/-- C2 counterexample: with declared intervals `[10, 20]` (device order),
`getPollInterval` computes 20 seconds — the sub-floor value 10 triggers the
600-second fallback mid-fold and the later device then lowers it to 20 —
which is neither `max(floor, min(declared)) = 15` nor the 600- or
3600-second fallback; and removing the minimum-interval device leaves the
effective interval at 20 rather than raising it. -/
theorem getPollInterval_order_cex :
    getPollIntervalSeconds [10, 20] = 20
    ∧ (20:Int) ≠ max 15 (min 10 20)
    ∧ (20:Int) ≠ 600 ∧ (20:Int) ≠ 3600
    ∧ getPollIntervalSeconds [20] = 20 := by
  refine ⟨by decide, by decide, by decide, by decide, by decide⟩

/-- C2 (amended): when every declared interval is at or above the
15-second floor, the effective interval (in seconds, before the
milliseconds scaling and jitter) is the minimum of the declared intervals
capped by the 3600-second accumulator start, i.e. the fold of `min` from
3600; with no declared preference it is 3600; and removing a device whose
declared interval is strictly below every other (with the floor respected
and the minimum below the cap) strictly raises the effective interval.  A
declared interval below the floor instead sets the accumulator to the
600-second fallback at that point of the device-order fold, so the result
is order-dependent (see the counterexample). -/
theorem getPollInterval_amended (settings : List Int) :
    ((∀ x ∈ settings, (15:Int) ≤ x) →
      getPollIntervalSeconds settings = settings.foldl min 3600)
    ∧ getPollIntervalSeconds [] = 3600
    ∧ (∀ d : Int, 15 ≤ d → d < 3600 → (∀ x ∈ settings, d < x) → settings ≠ [] →
        getPollIntervalSeconds (d :: settings) < getPollIntervalSeconds settings) := by
  refine ⟨?_, rfl, ?_⟩
  · intro hall
    exact foldl_pollIntervalStep_min settings 3600 (by omega) hall
  · intro d hd hcap hall _
    have hall15 : ∀ x ∈ settings, (15:Int) ≤ x := fun x hx => by
      have := hall x hx; omega
    have hleft : getPollIntervalSeconds (d :: settings) = d := by
      have h1 : getPollIntervalSeconds (d :: settings) =
          (d :: settings).foldl min 3600 := by
        refine foldl_pollIntervalStep_min (d :: settings) 3600 (by omega) ?_
        intro x hx
        rcases List.mem_cons.1 hx with h | h
        · omega
        · exact hall15 x h
      rw [h1]
      simp only [List.foldl_cons, min_eq_right (le_of_lt hcap)]
      exact foldl_min_const settings d (fun x hx => le_of_lt (hall x hx))
    have hright : d < getPollIntervalSeconds settings := by
      have h2 : getPollIntervalSeconds settings = settings.foldl min 3600 :=
        foldl_pollIntervalStep_min settings 3600 (by omega) hall15
      rw [h2]
      exact foldl_min_lower settings 3600 d hcap hall
    omega

/-- C2 witness: the amended theorem at declared intervals `[20, 30]` — the
effective interval is the minimum-fold, 20 seconds. -/
theorem getPollInterval_amended_witness :
    getPollIntervalSeconds [20, 30] = [(20:Int), 30].foldl min 3600 :=
  (getPollInterval_amended [20, 30]).1 (by decide)

/-- C9 counterexample: `setModePassive` with power `Infinity` — not a
non-negative finite number — passes both validation checks (`Number.isNaN`
is false and `Infinity < 0` is false) and builds the request payload
instead of rejecting synchronously. -/
theorem setModePassive_infinity_cex :
    setModePassive .posInf (.finite 60) = .ok ⟨.posInf, .finite 60⟩
    ∧ JSNum.nonNegFinite .posInf = false := by
  refine ⟨rfl, rfl⟩

/-- C9 (amended): `setModePassive` rejects synchronously, before any
payload is built or network call made, exactly when either coerced input is
`NaN` or negative (including `-Infinity`); every other input — including
the non-finite `+Infinity` — is placed unchanged into the `passive_cfg`
payload. -/
theorem setModePassive_validation (p s : JSNum) :
    passiveOk (setModePassive p s) =
      (!(p.isNaNB || s.isNaNB || p.ltZero || s.ltZero))
    ∧ ((p.isNaNB || s.isNaNB || p.ltZero || s.ltZero) = false →
        setModePassive p s = .ok ⟨p, s⟩) := by
  constructor
  · cases hpn : p.isNaNB <;> cases hsn : s.isNaNB <;>
      cases hpl : p.ltZero <;> cases hsl : s.ltZero <;>
        simp [setModePassive, passiveOk, hpn, hsn, hpl, hsl]
  · intro h
    simp only [Bool.or_eq_false_iff] at h
    obtain ⟨⟨⟨h1, h2⟩, h3⟩, h4⟩ := h
    simp [setModePassive, h1, h2, h3, h4]

/-- C5 counterexample: an inbound reply that matches the pending request
and carries an `error` field (and no `result`) is rejected with the single
generic unexpected-shape error, not with a `DeviceError` carrying the
vendor message — the handler (driver.ts lines 602-611) never inspects the
`error` field, contradicting the claimed reply-handling rule. -/
theorem sendCommand_deviceerror_cex :
    (scRun 7 [.inbound ⟨some (.num 7), none, none,
        some (.obj [("message", true)])⟩]).settled = some .unexpectedReply
    ∧ Settle.isDeviceErrB .unexpectedReply = false
    ∧ specClaimedReplyOutcome
        ⟨some (.num 7), none, none, some (.obj [("message", true)])⟩ "vendor message"
        = .deviceErr "vendor message" := by
  refine ⟨by decide, rfl, rfl⟩

/-- C5 (amended): on an inbound reply whose `id` matches the pending
request, the handler resolves with the reply's `result` value when that
value is present and truthy, and otherwise — whether the reply carries an
`error` field, a falsy `result`, or neither field — rejects with the one
generic error for an unexpected reply shape; no `DeviceError`/
`ProtocolError` distinction and no vendor message extraction exist. -/
theorem sendCommand_reply_outcome (u : Int) (m : InMsg) (h : matchesId m u = true) :
    (scRun u [.inbound m]).settled =
      some (match m.result with
            | some r => if r.truthy then Settle.resolved r else .unexpectedReply
            | none => .unexpectedReply) := by
  simp only [scRun, List.foldl_cons, List.foldl_nil, scStep, SCState.initial,
    h, Bool.and_true, if_true]
  cases hr : m.result with
  | none => simp [SCState.settle, SCState.cleanup]
  | some r =>
      cases ht : r.truthy <;> simp [SCState.settle, SCState.cleanup, ht]

/-- C5 witness: the amended theorem at a matching reply carrying the truthy
result object. -/
theorem sendCommand_reply_outcome_witness :
    (scRun 7 [.inbound ⟨some (.num 7), none, some (.obj [("ok", true)]), none⟩]).settled =
      some (match (some (Json.obj [("ok", true)]) : Option Json) with
            | some r => if r.truthy then Settle.resolved r else .unexpectedReply
            | none => .unexpectedReply) :=
  sendCommand_reply_outcome 7 ⟨some (.num 7), none, some (.obj [("ok", true)]), none⟩
    (by decide)

/-- C6 counterexample: a `connect()` on a fresh socket issues a bind
request for local port `0` — the dynamic, OS-assigned port (marstek-api.ts
line 20 and lines 122-126) — not a fixed well-known local port (a fixed
port would be a positive constant; `0` explicitly delegates the choice to
the operating system). -/
theorem connect_dynamic_port_cex :
    (connect ⟨false, false, false⟩ (.bindOk true)).1 =
      .resolvedAfterBind connectBindRequest
    ∧ connectBindRequest.port = localPort
    ∧ localPort = 0
    ∧ ¬ 0 < connectBindRequest.port := by
  refine ⟨rfl, rfl, rfl, by decide⟩

/-- C6 (amended): `connect()` is idempotent — with an existing healthy
socket it resolves immediately without re-binding; otherwise it binds a
fresh UDP socket to the dynamic OS-assigned local port 0 across all local
interfaces (non-exclusively) and enables the broadcast flag, rejecting when
socket creation throws or when enabling the broadcast flag fails; an
asynchronous bind error ('error' event, e.g. port conflict) only
disconnects the socket and leaves the `connect()` promise unsettled rather
than rejecting it. -/
theorem connect_amended (s : SocketState) (env : ConnectEnv) :
    (s.sockExists = true → s.connected = true →
      connect s env = (.resolvedImmediately, s))
    ∧ ((s.sockExists && s.connected) = false →
        (connect s (.bindOk true) =
          (.resolvedAfterBind ⟨0, true, false⟩, ⟨true, true, true⟩))
        ∧ (connect s (.bindOk false) =
            (.rejected (some ⟨0, true, false⟩), ⟨false, false, false⟩))
        ∧ (connect s .createThrow = (.rejected none, ⟨false, false, false⟩))
        ∧ (connect s .bindErrorEvent =
            (.unsettled ⟨0, true, false⟩, ⟨false, false, false⟩))) := by
  constructor
  · intro h1 h2
    simp [connect, h1, h2]
  · intro h
    refine ⟨?_, ?_, ?_, ?_⟩ <;>
      simp [connect, h, connectBindRequest, localPort]

/-- C6 witness: the amended theorem's idempotence clause at a healthy
already-bound socket — `connect()` resolves immediately without
re-binding. -/
theorem connect_amended_witness :
    connect ⟨true, true, true⟩ (.bindOk true) = (.resolvedImmediately, ⟨true, true, true⟩) :=
  (connect_amended ⟨true, true, true⟩ (.bindOk true)).1 rfl rfl

/-- C10: a `login()` whose HTTP response carries a truthy token but no
`data` field stores the new token first (marstek-cloud.ts line 96), then
clears the stored devices and rejects with the no-devices error (lines
107-108) without rolling the token back; a subsequent `fetchDeviceStatus`
therefore sees `!this.token` false and skips the initial re-login. -/
theorem login_token_not_rolled_back (s0 : CloudState) (t : String)
    (ht : t ≠ "") (hni : s0.loginInFlight = false) :
    (loginEntry s0).1 = .started
    ∧ (loginComplete (loginEntry s0).2 (some ⟨some (.str t), none⟩)).2 =
        .error "Login did not return any devices."
    ∧ (loginComplete (loginEntry s0).2 (some ⟨some (.str t), none⟩)).1.token =
        some (.str t)
    ∧ fetchInitialLoginNeeded
        (loginComplete (loginEntry s0).2 (some ⟨some (.str t), none⟩)).1 = false := by
  have htr : Json.truthy (.str t) = true := by
    simp [Json.truthy, ht]
  refine ⟨by simp [loginEntry, hni], ?_, ?_, ?_⟩ <;>
    simp [loginEntry, hni, loginComplete, htr, fetchInitialLoginNeeded,
      CloudState.tokenTruthy, Json.truthy, ht]

/-- C10 witness: the theorem at an idle session and token "tok". -/
theorem login_token_not_rolled_back_witness :
    (loginEntry ⟨none, none, false, false, none, none⟩).1 = .started
    ∧ (loginComplete (loginEntry ⟨none, none, false, false, none, none⟩).2
        (some ⟨some (.str "tok"), none⟩)).2 =
        .error "Login did not return any devices."
    ∧ (loginComplete (loginEntry ⟨none, none, false, false, none, none⟩).2
        (some ⟨some (.str "tok"), none⟩)).1.token = some (.str "tok")
    ∧ fetchInitialLoginNeeded
        (loginComplete (loginEntry ⟨none, none, false, false, none, none⟩).2
          (some ⟨some (.str "tok"), none⟩)).1 = false :=
  login_token_not_rolled_back ⟨none, none, false, false, none, none⟩ "tok"
    (by decide) rfl

/-- C4: within the 58-second freshness window after a successful fetch an
idle session serves the cached snapshot with no state change and no
network call; a fetch or login entered while one is already in flight
attaches to the existing singleton promise with no state change; and a new
network fetch only ever starts from an idle session, marking it in flight —
so at most one fetch and at most one login are in flight per session. -/
theorem fetchDeviceStatus_singleflight (s : CloudState) (now : Int) (v : Json) (t : Int) :
    (s.fetchInFlight = false → s.lastDeviceStatus = some v → v.truthy = true →
      s.timestamp = some t → now - t < 58000 →
      fetchDeviceStatusEntry s now = (.cached v, s))
    ∧ (s.fetchInFlight = true → fetchDeviceStatusEntry s now = (.attach, s))
    ∧ (s.loginInFlight = true → loginEntry s = (.attach, s))
    ∧ ((fetchDeviceStatusEntry s now).1 = .started →
        s.fetchInFlight = false ∧ (fetchDeviceStatusEntry s now).2.fetchInFlight = true) := by
  refine ⟨?_, ?_, ?_, ?_⟩
  · intro hidle hlast htr hts hdiff
    simp [fetchDeviceStatusEntry, hidle, fetchFresh, hlast, htr, hts, hdiff]
  · intro h
    simp [fetchDeviceStatusEntry, h]
  · intro h
    simp [loginEntry, h]
  · intro h
    by_cases hf : s.fetchInFlight
    · simp [fetchDeviceStatusEntry, hf] at h
    · refine ⟨by simp [hf], ?_⟩
      by_cases hfr : fetchFresh s now = true
      · simp [fetchDeviceStatusEntry, hf, hfr] at h
      · simp [fetchDeviceStatusEntry, hf, hfr]

/-- C4 witness: the theorem's freshness clause at an idle session holding a
snapshot fetched 10 seconds ago — the call returns the cached snapshot
without a network call or state change. -/
theorem fetchDeviceStatus_singleflight_witness :
    fetchDeviceStatusEntry
      ⟨some (.str "tok"), none, false, false, some (.obj [("soc", true)]), some 1000⟩
      11000 =
      (.cached (.obj [("soc", true)]),
       ⟨some (.str "tok"), none, false, false, some (.obj [("soc", true)]), some 1000⟩) :=
  (fetchDeviceStatus_singleflight
    ⟨some (.str "tok"), none, false, false, some (.obj [("soc", true)]), some 1000⟩
    11000 (.obj [("soc", true)]) 1000).1 rfl rfl (by decide) rfl (by decide)

/-- C9 witness: the amended theorem at power 100 W and 300 s — valid inputs
are placed unchanged into the payload. -/
theorem setModePassive_validation_witness :
    setModePassive (.finite 100) (.finite 300) = .ok ⟨.finite 100, .finite 300⟩ :=
  (setModePassive_validation (.finite 100) (.finite 300)).2 (by decide)

/-- Helper for C3: one event-loop step preserves the at-most-one-settlement
invariant, provided the event is not the `socket.send` rejection. -/
theorem scStep_inv (u : Int) (s : SCState) (e : SCEvent)
    (he : e.isSendFail = false) (h : SCInv s) : SCInv (scStep u s e) := by
  obtain ⟨h1, h2⟩ := h
  cases e with
  | inbound m =>
      by_cases hg : (s.handlerOn && matchesId m u) = true
      · have hh : s.handlerOn = true := by
          cases hs : s.handlerOn
          · rw [hs] at hg; simp at hg
          · rfl
        have h0 : s.settleCalls = 0 := h2 (by simp [hh])
        simp only [scStep, hg, if_true]
        cases hr : m.result with
        | none =>
            exact ⟨by simp [SCState.settle, SCState.cleanup, h0],
                   by simp [SCState.settle, SCState.cleanup]⟩
        | some r =>
            cases ht : r.truthy <;>
              exact ⟨by simp [SCState.settle, SCState.cleanup, ht, h0],
                     by simp [SCState.settle, SCState.cleanup, ht]⟩
      · simpa [scStep, hg] using ⟨h1, h2⟩
  | timerFire =>
      by_cases hg : s.timerOn = true
      · have h0 : s.settleCalls = 0 := h2 (by simp [hg])
        simp only [scStep, hg, if_true]
        exact ⟨by simp [SCState.settle, SCState.cleanup, h0],
               by simp [SCState.settle, SCState.cleanup]⟩
      · simpa [scStep, hg] using ⟨h1, h2⟩
  | sendFail msg => simp [SCEvent.isSendFail] at he

/-- Helper for C3: the at-most-one-settlement invariant holds after any
trace without a `socket.send` rejection. -/
theorem scRun_inv (u : Int) (events : List SCEvent)
    (hns : ∀ e ∈ events, e.isSendFail = false) : SCInv (scRun u events) := by
  suffices h : ∀ (evs : List SCEvent), (∀ e ∈ evs, e.isSendFail = false) →
      ∀ s, SCInv s → SCInv (evs.foldl (scStep u) s) by
    exact h events hns SCState.initial ⟨by simp [SCState.initial], fun _ => rfl⟩
  intro evs
  induction evs with
  | nil => intro _ s hs; exact hs
  | cons e rest ih =>
      intro hall s hs
      simp only [List.foldl_cons]
      exact ih (fun x hx => hall x (List.mem_cons_of_mem _ hx)) _
        (scStep_inv u s e (hall e (List.mem_cons_self _ _)) hs)

/-- Helper for C3: after the timeout has settled the promise and
deregistered everything, further events without a `socket.send` rejection
change nothing. -/
theorem scFold_timedout (u : Int) :
    ∀ (evs : List SCEvent), (∀ e ∈ evs, e.isSendFail = false) →
      evs.foldl (scStep u) SCTimedOutState = SCTimedOutState := by
  intro evs
  induction evs with
  | nil => intro _; rfl
  | cons e rest ih =>
      intro hall
      have he : scStep u SCTimedOutState e = SCTimedOutState := by
        cases e with
        | inbound m => simp [scStep, SCTimedOutState]
        | timerFire => simp [scStep, SCTimedOutState]
        | sendFail msg =>
            have := hall (.sendFail msg) (List.mem_cons_self _ _)
            simp [SCEvent.isSendFail] at this
      simp only [List.foldl_cons, he]
      exact ih (fun x hx => hall x (List.mem_cons_of_mem _ hx))

/-- Helper for C3: a trace with no matching reply and no send failure that
contains the timeout tick ends in the timed-out state. -/
theorem scRun_timeout (u : Int) (events : List SCEvent)
    (hns : ∀ e ∈ events, e.isSendFail = false)
    (hnm : ∀ e ∈ events, e.isMatchFor u = false)
    (ht : SCEvent.timerFire ∈ events) :
    scRun u events = SCTimedOutState := by
  induction events with
  | nil => cases ht
  | cons e rest ih =>
      unfold scRun
      simp only [List.foldl_cons]
      cases e with
      | timerFire =>
          have h1 : scStep u SCState.initial .timerFire = SCTimedOutState := by
            simp [scStep, SCState.initial, SCState.cleanup, SCState.settle,
              SCTimedOutState, Option.orElse]
          rw [h1]
          exact scFold_timedout u rest (fun x hx => hns x (List.mem_cons_of_mem _ hx))
      | inbound m =>
          have hm : matchesId m u = false := by
            have := hnm (.inbound m) (List.mem_cons_self _ _)
            simpa [SCEvent.isMatchFor] using this
          have h1 : scStep u SCState.initial (.inbound m) = SCState.initial := by
            simp [scStep, hm]
          rw [h1]
          have ht2 : SCEvent.timerFire ∈ rest := by
            rcases List.mem_cons.1 ht with h | h
            · cases h
            · exact h
          have := ih (fun x hx => hns x (List.mem_cons_of_mem _ hx))
            (fun x hx => hnm x (List.mem_cons_of_mem _ hx)) ht2
          simpa [scRun] using this
      | sendFail msg =>
          have := hns (.sendFail msg) (List.mem_cons_self _ _)
          simp [SCEvent.isSendFail] at this

/-- Helper for C3: once the promise is settled, no later event can change
the settlement (JavaScript promises keep their first settlement). -/
theorem scStep_settled_mono (u : Int) (s : SCState) (e : SCEvent) (x : Settle)
    (h : s.settled = some x) : (scStep u s e).settled = some x := by
  cases e with
  | inbound m =>
      by_cases hg : (s.handlerOn && matchesId m u) = true
      · simp only [scStep, hg, if_true]
        cases hr : m.result with
        | none => simp [SCState.settle, SCState.cleanup, h, Option.orElse]
        | some r =>
            cases ht : r.truthy <;>
              simp [SCState.settle, SCState.cleanup, h, Option.orElse, ht]
      · simpa [scStep, hg] using h
  | timerFire =>
      by_cases hg : s.timerOn = true
      · simp [scStep, hg, SCState.settle, SCState.cleanup, h, Option.orElse]
      · simpa [scStep, hg] using h
  | sendFail msg =>
      simp [scStep, SCState.settle, SCState.cleanup, h, Option.orElse]

/-- Helper for C3: settlement is stable under any trace extension. -/
theorem scRun_settled_mono (u : Int) (events more : List SCEvent) (x : Settle)
    (h : (scRun u events).settled = some x) :
    (scRun u (events ++ more)).settled = some x := by
  unfold scRun at h ⊢
  rw [List.foldl_append]
  revert h
  generalize (events.foldl (scStep u) SCState.initial) = s
  intro h
  induction more generalizing s with
  | nil => exact h
  | cons e rest ih =>
      simp only [List.foldl_cons]
      exact ih _ (scStep_settled_mono u s e x h)

/-- C3: for every `sendCommand` invocation, run against any event-loop
trace without a `socket.send` rejection, at most one resolve/reject call is
made; a trace in which no inbound reply matches the request identifier and
that contains the timeout tick settles the promise with exactly the timeout
rejection (one settle call, handler deregistered, timer cleared), after the
configured deadline whose default is 10000 ms; and a settled promise keeps
its first settlement under any trace extension — it never settles twice. -/
theorem sendCommand_settles_once (u : Int) (events : List SCEvent)
    (hns : ∀ e ∈ events, e.isSendFail = false) :
    (scRun u events).settleCalls ≤ 1
    ∧ ((∀ e ∈ events, e.isMatchFor u = false) → SCEvent.timerFire ∈ events →
        (scRun u events).settled = some .timedOut
        ∧ (scRun u events).settleCalls = 1)
    ∧ (∀ (more : List SCEvent) (x : Settle), (scRun u events).settled = some x →
        (scRun u (events ++ more)).settled = some x)
    ∧ sendCommandDefaultTimeout = 10000 := by
  refine ⟨(scRun_inv u events hns).1, ?_, ?_, rfl⟩
  · intro hnm ht
    rw [scRun_timeout u events hns hnm ht]
    exact ⟨rfl, rfl⟩
  · intro more x h
    exact scRun_settled_mono u events more x h

/-- C3 witness: a request with identifier 7 that only ever sees a
non-matching reply (identifier 3) and then its timeout tick rejects with
exactly the timeout error, in one settle call. -/
theorem sendCommand_settles_once_witness :
    (scRun 7 [.inbound ⟨some (.num 3), none, none, none⟩, .timerFire]).settled =
      some .timedOut
    ∧ (scRun 7 [.inbound ⟨some (.num 3), none, none, none⟩, .timerFire]).settleCalls = 1 :=
  (sendCommand_settles_once 7 [.inbound ⟨some (.num 3), none, none, none⟩, .timerFire]
    (by decide)).2.1 (by decide) (by decide)

/-- C7 counterexample: `pollStart` pushes onto an array, not a set — after
starting device "A" twice and stopping it once, the started device "A" has
been stopped once yet the tracked list still holds one copy of "A" and the
poll timer is still running, contradicting the claim's conclusion that the
timer is then no longer running. -/
theorem poll_duplicate_start_cex :
    (pollRun [.start "A", .start "A", .stop "A"]).timerRunning = true
    ∧ (pollRun [.start "A", .start "A", .stop "A"]).pollDevices = ["A"]
    ∧ (pollRun [.start "A", .start "A"]).pollDevices = ["A", "A"] := by
  refine ⟨rfl, rfl, rfl⟩

/-- C7 (amended): the tracked collection is a multiset (an array with
duplicates) — `pollStart` appends one occurrence of the device and leaves
the timer running (starting it, with one immediate poll, exactly when it
was not running, which by the invariant is exactly when the collection was
empty); `pollStop` removes one occurrence and cancels the timer exactly
when the collection becomes empty.  In every reachable state the timer
runs if and only if the tracked collection is non-empty, so the timer is
no longer running once every `pollStart` call (not merely every started
device) has been matched by a `pollStop` of the same device. -/
theorem poll_lifecycle_amended (events : List PollEvent) (s : PollState) (d : String) :
    ((pollRun events).timerRunning = !(pollRun events).pollDevices.isEmpty)
    ∧ (pollStart s d).pollDevices.count d = s.pollDevices.count d + 1
    ∧ (pollStart s d).timerRunning = true
    ∧ (pollStart s d).immediatePolls =
        s.immediatePolls + (if s.timerRunning then 0 else 1)
    ∧ (pollStop s d).pollDevices.count d = s.pollDevices.count d - 1
    ∧ (pollStop s d).timerRunning =
        (s.timerRunning && !(s.pollDevices.erase d).isEmpty) := by
  refine ⟨?_, ?_, ?_, ?_, ?_, ?_⟩
  · suffices h : ∀ (evs : List PollEvent) (st : PollState),
        st.timerRunning = !st.pollDevices.isEmpty →
        (evs.foldl pollStep st).timerRunning =
          !(evs.foldl pollStep st).pollDevices.isEmpty by
      exact h events pollInit rfl
    intro evs
    induction evs with
    | nil => intro st hst; exact hst
    | cons e rest ih =>
        intro st hst
        simp only [List.foldl_cons]
        refine ih _ ?_
        cases e with
        | start dd =>
            simp only [pollStep, pollStart]
            cases htm : st.timerRunning <;> cases st.pollDevices <;> simp
        | stop dd =>
            simp only [pollStep, pollStop]
            by_cases hc : (st.timerRunning && (st.pollDevices.erase dd).isEmpty) = true
            · have h1 : st.timerRunning = true := by
                cases hx : st.timerRunning
                · rw [hx] at hc; simp at hc
                · rfl
              have h2 : (st.pollDevices.erase dd).isEmpty = true := by
                rw [h1] at hc; simpa using hc
              simp [h1, h2]
            · have hc2 := hc
              simp only [hc, if_false]
              cases htm : st.timerRunning
              · rw [htm] at hst
                have : st.pollDevices.isEmpty = true := by
                  cases hx : st.pollDevices.isEmpty
                  · rw [hx] at hst; simp at hst
                  · rfl
                have hnil : st.pollDevices = [] := List.isEmpty_iff.mp this
                simp [hnil]
              · rw [htm] at hc2
                have : (st.pollDevices.erase dd).isEmpty = false := by
                  cases hx : (st.pollDevices.erase dd).isEmpty
                  · rfl
                  · rw [hx] at hc2; simp at hc2
                simp [this]
  · simp only [pollStart]
    cases htm : s.timerRunning <;> simp [List.count_append]
  · simp only [pollStart]
    cases htm : s.timerRunning <;> simp
  · simp only [pollStart]
    cases htm : s.timerRunning <;> simp
  · simp only [pollStop]
    by_cases hc : (s.timerRunning && (s.pollDevices.erase d).isEmpty) = true <;>
      simp [hc, List.count_erase_self]
  · simp only [pollStop]
    by_cases hc : (s.timerRunning && (s.pollDevices.erase d).isEmpty) = true
    · simp only [hc, if_true]
      cases htm : s.timerRunning
      · rw [htm] at hc; simp at hc
      · have h2 : (s.pollDevices.erase d).isEmpty = true := by
          rw [htm] at hc; simpa using hc
        simp [h2]
    · simp only [hc, if_false]
      cases htm : s.timerRunning
      · simp
      · rw [htm] at hc
        have : (s.pollDevices.erase d).isEmpty = false := by
          cases hx : (s.pollDevices.erase d).isEmpty
          · rfl
          · rw [hx] at hc; simp at hc
        simp [this]

/-- Helper for C8: strict equality against a string value is value
equality. -/
theorem Json.seq_str (j : Json) (s : String) : j.seq (.str s) = true ↔ j = .str s := by
  cases j <;> simp [Json.seq]

/-- Helper for C8: once an entry with the given source tag is present, the
discovery fold never adds a second one nor removes it. -/
theorem detectFold_stable (s : String) :
    ∀ (replies : List DetectReply) (acc : List DetectedDevice),
      (acc.any fun e => e.id.seq (.str s)) = true →
      ((replies.foldl detectStep acc).filter fun e => e.id.seq (.str s)) =
        (acc.filter fun e => e.id.seq (.str s)) := by
  intro replies
  induction replies with
  | nil => intro acc _; rfl
  | cons r rest ih =>
      intro acc hacc
      simp only [List.foldl_cons]
      by_cases hv : detectValid r = true
      · by_cases hdup : (acc.any fun e => e.id.seq (r.src.getD .null)) = true
        · have hstep : detectStep acc r = acc := by
            simp [detectStep, hv, hdup]
          rw [hstep]
          exact ih acc hacc
        · have hstep : detectStep acc r = acc ++ [⟨r.src.getD .null, r.address⟩] := by
            simp [detectStep, hv, hdup]
          have hq : (r.src.getD .null).seq (.str s) = false := by
            cases hx : (r.src.getD .null).seq (.str s)
            · rfl
            · have hu : r.src.getD .null = .str s := (Json.seq_str _ _).1 hx
              rw [hu] at hdup
              exact absurd hacc hdup
          rw [hstep]
          have hany : ((acc ++ [⟨r.src.getD .null, r.address⟩] : List DetectedDevice).any
              fun e => e.id.seq (.str s)) = true := by
            simp [List.any_append, hacc]
          rw [ih _ hany]
          simp [List.filter_append, hq]
      · have hstep : detectStep acc r = acc := by
          simp [detectStep, hv]
        rw [hstep]
        exact ih acc hacc

/-- Helper for C8: starting from an accumulator holding no entry with the
given source tag, the final entries carrying that tag are exactly one entry
per first valid reply with that tag, recording that reply's sender
address. -/
theorem detectFold_find (s : String) :
    ∀ (replies : List DetectReply) (acc : List DetectedDevice),
      (acc.any fun e => e.id.seq (.str s)) = false →
      ((replies.foldl detectStep acc).filter fun e => e.id.seq (.str s)) =
        (match replies.find? (fun r => detectValid r && (r.src.getD .null).seq (.str s)) with
         | some r => [⟨Json.str s, r.address⟩]
         | none => []) := by
  intro replies
  induction replies with
  | nil =>
      intro acc hacc
      simp only [List.foldl_nil, List.find?_nil]
      rw [List.filter_eq_nil_iff]
      intro e he
      have := List.any_eq_false.mp hacc e he
      simpa using this
  | cons r rest ih =>
      intro acc hacc
      simp only [List.foldl_cons]
      by_cases hv : detectValid r = true
      · by_cases hsrc : (r.src.getD .null).seq (.str s) = true
        · have hu : r.src.getD .null = .str s := (Json.seq_str _ _).1 hsrc
          have hstep : detectStep acc r = acc ++ [⟨Json.str s, r.address⟩] := by
            simp [detectStep, hv, hu, hacc]
          rw [hstep]
          have hfind : (r :: rest).find?
              (fun r => detectValid r && (r.src.getD .null).seq (.str s)) = some r := by
            simp [List.find?, hv, hsrc]
          rw [hfind]
          rw [detectFold_stable s rest _ (by simp [List.any_append, Json.seq])]
          rw [List.filter_append]
          have hfacc : (acc.filter fun e => e.id.seq (.str s)) = [] := by
            rw [List.filter_eq_nil_iff]
            intro e he
            have := List.any_eq_false.mp hacc e he
            simpa using this
          rw [hfacc]
          simp [Json.seq]
        · have hcond : (detectValid r && (r.src.getD .null).seq (.str s)) = false := by
            simp [hv, hsrc]
          have hfind : (r :: rest).find?
              (fun r => detectValid r && (r.src.getD .null).seq (.str s)) =
              rest.find? (fun r => detectValid r && (r.src.getD .null).seq (.str s)) := by
            simp [List.find?, hcond]
          rw [hfind]
          by_cases hdup : (acc.any fun e => e.id.seq (r.src.getD .null)) = true
          · have hstep : detectStep acc r = acc := by
              simp [detectStep, hv, hdup]
            rw [hstep]
            exact ih acc hacc
          · have hstep : detectStep acc r = acc ++ [⟨r.src.getD .null, r.address⟩] := by
              simp [detectStep, hv, hdup]
            rw [hstep]
            refine ih _ ?_
            simp [List.any_append, hacc, hsrc]
      · have hcond : (detectValid r && (r.src.getD .null).seq (.str s)) = false := by
          simp [hv]
        have hfind : (r :: rest).find?
            (fun r => detectValid r && (r.src.getD .null).seq (.str s)) =
            rest.find? (fun r => detectValid r && (r.src.getD .null).seq (.str s)) := by
          simp [List.find?, hcond]
        have hstep : detectStep acc r = acc := by
          simp [detectStep, hv]
        rw [hfind, hstep]
        exact ih acc hacc

/-- C8: for any sequence of replies received during the discovery window
and any source tag, the resolved device list holds exactly one entry for
that tag when some valid reply carried it — recording the address of the
first such reply, so two replies with the same tag but different addresses
keep only the first-seen address — and no entry otherwise; a window with no
replies resolves with the empty list (a valid result), after the 9000 ms
window. -/
theorem broadcastDetect_dedup (replies : List DetectReply) (s : String) :
    ((broadcastDetect replies).filter fun e => e.id.seq (.str s)) =
      (match replies.find? (fun r => detectValid r && (r.src.getD .null).seq (.str s)) with
       | some r => [⟨Json.str s, r.address⟩]
       | none => [])
    ∧ broadcastDetect [] = []
    ∧ detectWindowMs = 9000 := by
  refine ⟨?_, rfl, rfl⟩
  exact detectFold_find s replies [] (by simp)
